import Mathlib

/-!
Shallow embedding of the schema-validated capability dispatcher of the
typescript-mcp-server repository (src/src/index.ts) and of the concrete
tool handlers registered in it (greet, calculator, time, geocode,
get-weather, generate-image), together with the code-review prompt and the
server-info resource.

The concrete handler bodies, the input schemas (zod object schemas) and the
strings they build are translated from src/src/index.ts.  The dispatcher,
the registry lookup and the validation semantics of the schema library are
not part of src/ (they live in the MCP SDK and in zod); those are modelled
from the spec (sections 4.1-4.4 and 7) and each such definition is marked
`Modelled from the spec:` in its doc comment.

External effects (the Intl date/time formatter, the Nominatim and
Open-Meteo HTTP fetches, the HuggingFace image call, the process
environment) are abstracted into an explicit environment record `Env`:
a handler is a pure function of its validated arguments and of the
environment, and a throw in the TypeScript source is `Except.error` here.

JavaScript numbers are modelled as `Rat`; every concrete value the claims
exercise is a small integer, on which double arithmetic is exact, and
`jsNumRepr` renders an integer-valued number the way JavaScript template
interpolation does.
-/

set_option autoImplicit false

namespace MCP

/-- JSON-like raw argument values as they arrive from the caller. -/
inductive Json where
  | str (s : String)
  | num (q : Rat)
  | boolean (b : Bool)
  | null
  | arr (xs : List Json)
  | obj (fields : List (String × Json))

/-- One unit of response payload: a text block or a binary image block
(src/src/index.ts builds `{type:'text', text}` and `{type:'image', data, mimeType}`). -/
inductive ContentBlock where
  | text (s : String)
  | image (data : String) (mimeType : String)
  deriving DecidableEq

/-- The value a tool handler returns (src/src/index.ts return literals):
a content-block list plus, when present, a `structuredContent` object whose
single `content` field is modelled as the carried list. -/
structure HandlerResult where
  content : List ContentBlock
  structuredContent : Option (List ContentBlock)
  deriving DecidableEq

/-- Modelled from the spec (section 3): a field error names the offending
field path and carries a human-readable message. -/
structure FieldError where
  path : String
  message : String
  deriving DecidableEq

/-- Modelled from the spec (section 3): either a typed coerced value or the
collected validation errors, never both. -/
inductive ValidationResult (α : Type) where
  | valid (v : α)
  | invalid (errs : List FieldError)
  deriving DecidableEq

/-- Modelled from the spec (section 3): the outcome of one invocation. -/
inductive InvocationOutcome where
  | Success (content : List ContentBlock) (structuredContent : Option (List ContentBlock))
  | Failure (message : String)
  deriving DecidableEq

/-- Modelled from the spec (section 3): capability kinds.  The tool,
resource and prompt namespaces are independent. -/
inductive CapKind where
  | tool
  | resource
  | prompt
  deriving DecidableEq

/-- Renders a capability kind for the unknown-capability failure message. -/
def CapKind.repr : CapKind → String
  | .tool => "tool"
  | .resource => "resource"
  | .prompt => "prompt"

/-- JavaScript template interpolation of a number, restricted to the values
this development exercises: an integer-valued double prints with no decimal
point, exactly as `Int` printing does. -/
def jsNumRepr (q : Rat) : String :=
  if q.den = 1 then toString q.num else toString q

/-- First binding of a key in a raw JSON object, as property lookup finds it. -/
def getField (fields : List (String × Json)) (k : String) : Option Json :=
  match fields with
  | [] => none
  | (k2, v) :: rest => if k2 = k then some v else getField rest k

/-- Modelled from the spec (section 4.1): a required field of numeric type.
Missing fields and non-numeric values are outright errors; there is no
string-to-number coercion. -/
def reqNum (fields : List (String × Json)) (k : String) : Except FieldError Rat :=
  match getField fields k with
  | none => .error ⟨k, "Required"⟩
  | some (.num q) => .ok q
  | some _ => .error ⟨k, "Expected number"⟩

/-- Modelled from the spec (section 4.1): a required field of string type. -/
def reqStr (fields : List (String × Json)) (k : String) : Except FieldError String :=
  match getField fields k with
  | none => .error ⟨k, "Required"⟩
  | some (.str s) => .ok s
  | some _ => .error ⟨k, "Expected string"⟩

/-- Modelled from the spec (section 4.1): a required enum field,
case-sensitive exact match against the declared literal set. -/
def reqEnum (fields : List (String × Json)) (k : String) (allowed : List String) :
    Except FieldError String :=
  match getField fields k with
  | none => .error ⟨k, "Required"⟩
  | some (.str s) => if s ∈ allowed then .ok s else .error ⟨k, "Invalid enum value"⟩
  | some _ => .error ⟨k, "Invalid enum value"⟩

/-- Modelled from the spec (sections 4.1 and 8): an optional enum field with
a declared default; omitting the field entirely yields the default as the
coerced value before the handler runs. -/
def optEnumDefault (fields : List (String × Json)) (k : String) (allowed : List String)
    (dflt : String) : Except FieldError String :=
  match getField fields k with
  | none => .ok dflt
  | some (.str s) => if s ∈ allowed then .ok s else .error ⟨k, "Invalid enum value"⟩
  | some _ => .error ⟨k, "Invalid enum value"⟩

/-- The collected errors of one field check: none when it succeeded. -/
def errsOf {α : Type} : Except FieldError α → List FieldError
  | .ok _ => []
  | .error e => [e]

/-- Modelled from the spec (sections 4.3 and 7): the failure message of a
validation failure enumerates every collected field error, joined. -/
def renderErrors (errs : List FieldError) : String :=
  String.intercalate ("; ") (errs.map (fun e => e.path ++ ": " ++ e.message))

/-! ## greet (src/src/index.ts lines 12-58) -/

/-- The greet tool's validated argument record: `name` a required string,
`language` an enum of `ko`/`en` defaulted to `en` (lines 16-23). -/
structure GreetArgs where
  name : String
  language : String
  deriving DecidableEq

/-- Validation of the greet input schema (lines 16-23); error accumulation
across fields is modelled from the spec (section 4.1). -/
def parseGreet (raw : Json) : ValidationResult GreetArgs :=
  match raw with
  | .obj fields =>
    let n := reqStr fields ("name")
    let lang := optEnumDefault fields ("language") (["ko", "en"]) ("en")
    match n, lang with
    | .ok a, .ok b => .valid ⟨a, b⟩
    | _, _ => .invalid (errsOf n ++ errsOf lang)
  | _ => .invalid [⟨"", "Expected object"⟩]

/-- The greet handler (lines 35-57): a Korean or English greeting, returned
as one text block, duplicated into `structuredContent`. -/
def greetHandler (a : GreetArgs) : Except String HandlerResult :=
  let greeting :=
    if a.language = "ko" then "안녕하세요, " ++ a.name ++ "님!"
    else "Hey there, " ++ a.name ++ "! 👋 Nice to meet you!"
  .ok ⟨[.text greeting], some [.text greeting]⟩

/-! ## calculator (src/src/index.ts lines 60-129) -/

/-- The calculator tool's validated argument record (lines 64-70):
the operator stays a string at runtime, constrained by the enum. -/
structure CalcArgs where
  number1 : Rat
  number2 : Rat
  operator : String
  deriving DecidableEq

/-- Validation of the calculator input schema (lines 64-70). -/
def parseCalculator (raw : Json) : ValidationResult CalcArgs :=
  match raw with
  | .obj fields =>
    let n1 := reqNum fields ("number1")
    let n2 := reqNum fields ("number2")
    let op := reqEnum fields ("operator") (["+", "-", "*", "/"])
    match n1, n2, op with
    | .ok a, .ok b, .ok c => .valid ⟨a, b, c⟩
    | _, _, _ => .invalid (errsOf n1 ++ errsOf n2 ++ errsOf op)
  | _ => .invalid [⟨"", "Expected object"⟩]

/-- The calculator handler's switch on the operator (lines 86-108):
each case yields the numeric result and the Korean operation name; the
division case throws on a zero divisor; the default case throws the
unsupported-operator error. -/
def calcSwitch (number1 number2 : Rat) (operator : String) : Except String (Rat × String) :=
  if operator = "+" then .ok (number1 + number2, "덧셈")
  else if operator = "-" then .ok (number1 - number2, "뺄셈")
  else if operator = "*" then .ok (number1 * number2, "곱셈")
  else if operator = "/" then
    if number2 = 0 then .error ("0으로 나눌 수 없습니다.")
    else .ok (number1 / number2, "나눗셈")
  else .error ("지원하지 않는 연산자입니다: " ++ operator)

/-- The calculator handler (lines 82-128): runs the switch, renders
`number1 operator number2 = result (operation)`, and returns the text block
duplicated into `structuredContent`. -/
def calcHandler (a : CalcArgs) : Except String HandlerResult :=
  match calcSwitch a.number1 a.number2 a.operator with
  | .error msg => .error msg
  | .ok (result, operation) =>
    let resultText :=
      jsNumRepr a.number1 ++ " " ++ a.operator ++ " " ++ jsNumRepr a.number2 ++ " = " ++
        jsNumRepr result ++ " (" ++ operation ++ ")"
    .ok ⟨[.text resultText], some [.text resultText]⟩

/-! ## External effects

Each network or platform effect of src/src/index.ts is abstracted into one
field of `Env`; the handler logic around the effect is translated from the
source. -/

/-- Outcome of the Nominatim fetch in the geocode handler (lines 212-241):
a non-OK HTTP response, an empty result list, or the first result with its
`lat`/`lon` (already parsed, the strings the API returns are abstracted to
their numeric value) and optional `display_name`. -/
inductive GeoResponse where
  | notOk (status : Nat) (statusText : String)
  | empty
  | found (lat : Rat) (lon : Rat) (displayName : Option String)

/-- The daily-forecast arrays of the Open-Meteo payload (lines 323-324,
371-382).  Values that the source only interpolates into text are kept as
the strings they render to; weather codes are kept as integers because the
source looks them up in a numeric table. -/
structure WeatherData where
  currentTemp : String
  currentCode : Int
  windspeed : String
  winddirection : String
  dailyTimes : List String
  dailyMax : List String
  dailyMin : List String
  dailyPrecip : List String
  dailyCodes : List Int

/-- Outcome of the Open-Meteo fetch in the get-weather handler
(lines 311-321): a non-OK HTTP response, a payload without
`current_weather`, or the usable data. -/
inductive WeatherResponse where
  | notOk (status : Nat) (statusText : String)
  | noCurrent
  | ok (d : WeatherData)

/-- The external collaborators of the handlers (spec section 6):
`formatTime tz` is the Intl date/time formatter of the time handler, `none`
when constructing it throws (invalid timezone); `formatDate` is the short
Korean date rendering of the weather forecast loop; `geocodeFetch` and
`weatherFetch` are the two HTTP calls; `hfToken` is the `HF_TOKEN`
environment variable and `textToImage p` the HuggingFace call, returning
the base64 image data or a failure message; `serverInfoJson` is the
serialized server-metadata document of the server-info resource (its
serialization depends on the process clock and uptime, so it is external
here). -/
structure Env where
  formatTime : String → Option String
  formatDate : String → String
  geocodeFetch : String → GeoResponse
  weatherFetch : Rat → Rat → Rat → WeatherResponse
  hfToken : Option String
  textToImage : String → Except String String
  serverInfoJson : String

/-! ## time (src/src/index.ts lines 131-189) -/

/-- The time tool's validated argument record (lines 135-139). -/
structure TimeArgs where
  timezone : String
  deriving DecidableEq

/-- Validation of the time input schema (lines 135-139). -/
def parseTime (raw : Json) : ValidationResult TimeArgs :=
  match raw with
  | .obj fields =>
    match reqStr fields ("timezone") with
    | .ok tz => .valid ⟨tz⟩
    | .error e => .invalid [e]
  | _ => .invalid [⟨"", "Expected object"⟩]

/-- The time handler (lines 151-188): formats the current time in the
requested timezone; when the formatter throws, the catch block rethrows the
invalid-timezone message. -/
def timeHandler (env : Env) (a : TimeArgs) : Except String HandlerResult :=
  match env.formatTime a.timezone with
  | some timeString =>
    let resultText := a.timezone ++ "의 현재 시간: " ++ timeString
    .ok ⟨[.text resultText], some [.text resultText]⟩
  | none =>
    .error ("유효하지 않은 타임존입니다: " ++ a.timezone ++
      ". IANA 타임존 이름을 사용해주세요 (예: Asia/Seoul, America/New_York)")

/-! ## geocode (src/src/index.ts lines 191-269) -/

/-- The geocode tool's validated argument record (lines 195-199). -/
structure GeoArgs where
  address : String
  deriving DecidableEq

/-- Validation of the geocode input schema (lines 195-199). -/
def parseGeocode (raw : Json) : ValidationResult GeoArgs :=
  match raw with
  | .obj fields =>
    match reqStr fields ("address") with
    | .ok s => .valid ⟨s⟩
    | .error e => .invalid [e]
  | _ => .invalid [⟨"", "Expected object"⟩]

/-- The geocode handler (lines 211-268): fetches Nominatim, throws on a
non-OK response or an empty result, otherwise renders the coordinates; the
catch block wraps every inner failure in the geocoding-failed prefix.
`display_name || address` falls back to the address for a missing or empty
display name. -/
def geocodeHandler (env : Env) (a : GeoArgs) : Except String HandlerResult :=
  match env.geocodeFetch a.address with
  | .notOk status statusText =>
    .error ("지오코딩 실패: " ++ "Nominatim API 요청 실패: " ++ toString status ++ " " ++ statusText)
  | .empty =>
    .error ("지오코딩 실패: " ++ "주소를 찾을 수 없습니다: " ++ a.address)
  | .found lat lon displayName =>
    let dn :=
      match displayName with
      | some s => if s = "" then a.address else s
      | none => a.address
    let resultText := "주소: " ++ dn ++ "\n위도: " ++ jsNumRepr lat ++ "\n경도: " ++
      jsNumRepr lon ++ "\n좌표: (" ++ jsNumRepr lat ++ ", " ++ jsNumRepr lon ++ ")"
    .ok ⟨[.text resultText], some [.text resultText]⟩

/-! ## get-weather (src/src/index.ts lines 271-408) -/

/-- The get-weather tool's validated argument record (lines 275-286):
`forecastDays` is integer-valued after validation but remains a number. -/
structure WeatherArgs where
  latitude : Rat
  longitude : Rat
  forecastDays : Rat
  deriving DecidableEq

/-- Modelled from the spec (sections 4.1 and 8): a numeric field with
inclusive bounds; checks run in chain order and the first failed check of
the field is reported. -/
def checkBounds (k : String) (needInt : Bool) (lo hi : Rat) (q : Rat) :
    Except FieldError Rat :=
  if needInt ∧ q.den ≠ 1 then .error ⟨k, "Expected integer"⟩
  else if q < lo then .error ⟨k, "Too small"⟩
  else if hi < q then .error ⟨k, "Too big"⟩
  else .ok q

/-- Modelled from the spec (section 4.1): a required bounded numeric field. -/
def reqBoundedNum (fields : List (String × Json)) (k : String) (needInt : Bool)
    (lo hi : Rat) : Except FieldError Rat :=
  match reqNum fields k with
  | .error e => .error e
  | .ok q => checkBounds k needInt lo hi q

/-- Modelled from the spec (section 4.1): an optional bounded numeric field
with a declared default, applied when the field is absent. -/
def optBoundedNumDefault (fields : List (String × Json)) (k : String) (needInt : Bool)
    (lo hi : Rat) (dflt : Rat) : Except FieldError Rat :=
  match getField fields k with
  | none => .ok dflt
  | some (.num q) => checkBounds k needInt lo hi q
  | some _ => .error ⟨k, "Expected number"⟩

/-- Validation of the get-weather input schema (lines 275-286): latitude in
[-90, 90], longitude in [-180, 180], forecastDays an integer in [1, 16]
defaulting to 7. -/
def parseWeather (raw : Json) : ValidationResult WeatherArgs :=
  match raw with
  | .obj fields =>
    let lat := reqBoundedNum fields ("latitude") false (-90) 90
    let lon := reqBoundedNum fields ("longitude") false (-180) 180
    let fd := optBoundedNumDefault fields ("forecastDays") true 1 16 7
    match lat, lon, fd with
    | .ok a, .ok b, .ok c => .valid ⟨a, b, c⟩
    | _, _, _ => .invalid (errsOf lat ++ errsOf lon ++ errsOf fd)
  | _ => .invalid [⟨"", "Expected object"⟩]

/-- The weather-code table of the get-weather handler (lines 327-359); an
unknown code renders as `코드 <code>`. -/
def getWeatherDescription (code : Int) : String :=
  if code = 0 then "맑음"
  else if code = 1 then "대체로 맑음"
  else if code = 2 then "부분적으로 흐림"
  else if code = 3 then "흐림"
  else if code = 45 then "안개"
  else if code = 48 then "서리 안개"
  else if code = 51 then "약한 이슬비"
  else if code = 53 then "보통 이슬비"
  else if code = 55 then "강한 이슬비"
  else if code = 56 then "약한 동결 이슬비"
  else if code = 57 then "강한 동결 이슬비"
  else if code = 61 then "약한 비"
  else if code = 63 then "보통 비"
  else if code = 65 then "강한 비"
  else if code = 66 then "약한 동결 비"
  else if code = 67 then "강한 동결 비"
  else if code = 71 then "약한 눈"
  else if code = 73 then "보통 눈"
  else if code = 75 then "강한 눈"
  else if code = 77 then "눈알갱이"
  else if code = 80 then "약한 소나기"
  else if code = 81 then "보통 소나기"
  else if code = 82 then "강한 소나기"
  else if code = 85 then "약한 눈 소나기"
  else if code = 86 then "강한 눈 소나기"
  else if code = 95 then "뇌우"
  else if code = 96 then "우박을 동반한 뇌우"
  else if code = 99 then "강한 우박을 동반한 뇌우"
  else "코드 " ++ toString code

/-- One iteration of the forecast loop (lines 371-383).  The daily arrays
come from the same API payload and are indexed in lockstep; an index past
an array is inert here because the loop bound is the time array's length. -/
def forecastLine (env : Env) (d : WeatherData) (i : Nat) : String :=
  "\n" ++ env.formatDate (d.dailyTimes.getD i ("")) ++ ":\n" ++
  "  최고온도: " ++ d.dailyMax.getD i ("undefined") ++ "°C\n" ++
  "  최저온도: " ++ d.dailyMin.getD i ("undefined") ++ "°C\n" ++
  "  강수량: " ++ d.dailyPrecip.getD i ("undefined") ++ " mm\n" ++
  "  날씨: " ++ getWeatherDescription (d.dailyCodes.getD i 0) ++ "\n"

/-- The result text of the get-weather handler (lines 361-383): the current
weather block followed by `min forecastDays (length of daily.time)`
forecast lines. -/
def weatherText (env : Env) (a : WeatherArgs) (d : WeatherData) : String :=
  let header := "=== 현재 날씨 ===\n" ++
    "위치: 위도 " ++ jsNumRepr a.latitude ++ ", 경도 " ++ jsNumRepr a.longitude ++ "\n" ++
    "온도: " ++ d.currentTemp ++ "°C\n" ++
    "날씨: " ++ getWeatherDescription d.currentCode ++ "\n" ++
    "풍속: " ++ d.windspeed ++ " km/h\n" ++
    "풍향: " ++ d.winddirection ++ "°\n\n" ++
    "=== " ++ jsNumRepr a.forecastDays ++ "일 예보 ===\n"
  let n := min a.forecastDays.num.toNat d.dailyTimes.length
  header ++ String.join ((List.range n).map (forecastLine env d))

/-- The get-weather handler (lines 298-407): fetches Open-Meteo, throws on
a non-OK response or a missing `current_weather`, otherwise renders the
forecast text; the catch block wraps every inner failure in the
weather-lookup-failed prefix. -/
def weatherHandler (env : Env) (a : WeatherArgs) : Except String HandlerResult :=
  match env.weatherFetch a.latitude a.longitude a.forecastDays with
  | .notOk status statusText =>
    .error ("날씨 정보 조회 실패: " ++ "Open-Meteo API 요청 실패: " ++ toString status ++ " " ++ statusText)
  | .noCurrent =>
    .error ("날씨 정보 조회 실패: " ++ "날씨 데이터를 가져올 수 없습니다.")
  | .ok d =>
    let resultText := weatherText env a d
    .ok ⟨[.text resultText], some [.text resultText]⟩

/-! ## generate-image (src/src/index.ts lines 410-458) -/

/-- The generate-image tool's validated argument record (lines 414-420). -/
structure ImageArgs where
  prompt : String
  deriving DecidableEq

/-- Validation of the generate-image input schema (lines 414-420): a
required string of length between 1 and 1000. -/
def parseImage (raw : Json) : ValidationResult ImageArgs :=
  match raw with
  | .obj fields =>
    match reqStr fields ("prompt") with
    | .ok s =>
      if s.length < 1 then .invalid [⟨"prompt", "Too small"⟩]
      else if 1000 < s.length then .invalid [⟨"prompt", "Too big"⟩]
      else .valid ⟨s⟩
    | .error e => .invalid [e]
  | _ => .invalid [⟨"", "Expected object"⟩]

/-- The generate-image handler (lines 422-457): throws when `HF_TOKEN` is
unset or empty (a falsy token), calls the image model, and returns a single
image block with no `structuredContent` (the tool declares no output
schema); the catch block wraps every inner failure in the
image-generation-failed prefix. -/
def imageHandler (env : Env) (a : ImageArgs) : Except String HandlerResult :=
  match env.hfToken with
  | none => .error ("이미지 생성 실패: " ++ "HF_TOKEN 환경 변수가 설정되지 않았습니다.")
  | some tok =>
    if tok = "" then .error ("이미지 생성 실패: " ++ "HF_TOKEN 환경 변수가 설정되지 않았습니다.")
    else
      match env.textToImage a.prompt with
      | .error msg => .error ("이미지 생성 실패: " ++ msg)
      | .ok base64Data => .ok ⟨[.image base64Data ("image/png")], none⟩

/-! ## code-review prompt (src/src/index.ts lines 518-594) -/

/-- The code-review prompt's validated argument record (lines 567-577). -/
structure CodeReviewArgs where
  code : String
  language : Option String
  focus : Option String
  deriving DecidableEq

/-- Modelled from the spec (section 4.1): an optional string field with no
default; absent stays absent. -/
def optStr (fields : List (String × Json)) (k : String) : Except FieldError (Option String) :=
  match getField fields k with
  | none => .ok none
  | some (.str s) => .ok (some s)
  | some _ => .error ⟨k, "Expected string"⟩

/-- Validation of the code-review args schema (lines 567-577). -/
def parseCodeReview (raw : Json) : ValidationResult CodeReviewArgs :=
  match raw with
  | .obj fields =>
    let c := reqStr fields ("code")
    let lang := optStr fields ("language")
    let f := optStr fields ("focus")
    match c, lang, f with
    | .ok a, .ok b, .ok d => .valid ⟨a, b, d⟩
    | _, _, _ => .invalid (errsOf c ++ errsOf lang ++ errsOf f)
  | _ => .invalid [⟨"", "Expected object"⟩]

/-- JavaScript truthiness of an optional string: undefined and the empty
string are falsy. -/
def strTruthy : Option String → Bool
  | none => false
  | some s => s ≠ ""

/-- `language || ''` of the template (line 527). -/
def langOrEmpty : Option String → String
  | none => ""
  | some s => s

/-- The fixed tail of the code-review template (lines 531-558). -/
def codeReviewTail : String :=
  "\n\n=== 리뷰 요청 사항 ===\n\n" ++
  "1. 코드 품질 및 표준 준수 여부\n" ++
  "   - 코딩 컨벤션 준수 여부\n" ++
  "   - 네이밍 규칙 적절성\n" ++
  "   - 코드 구조 및 설계 패턴\n\n" ++
  "2. 성능 최적화 가능성\n" ++
  "   - 알고리즘 효율성\n" ++
  "   - 불필요한 연산이나 중복 코드\n" ++
  "   - 메모리 사용 최적화\n\n" ++
  "3. 보안 취약점\n" ++
  "   - 입력 검증 및 검사\n" ++
  "   - 인젝션 공격 가능성\n" ++
  "   - 인증 및 권한 관리\n\n" ++
  "4. 가독성 및 유지보수성\n" ++
  "   - 코드 주석 및 문서화\n" ++
  "   - 함수/클래스 분리 적절성\n" ++
  "   - 테스트 가능성\n\n" ++
  "5. 개선 제안\n" ++
  "   - 구체적인 개선 방안\n" ++
  "   - 리팩토링 제안\n" ++
  "   - 베스트 프랙티스 적용\n\n" ++
  "각 항목에 대해 구체적인 예시와 함께 설명해주세요."

/-- The code-review prompt template (lines 519-559). -/
def codeReviewTemplate (code : String) (language focus : Option String) : String :=
  let languageInfo := if strTruthy language then "프로그래밍 언어: " ++ langOrEmpty language ++ "\n\n" else ""
  let focusInfo := if strTruthy focus then "특별히 집중할 영역: " ++ langOrEmpty focus ++ "\n\n" else ""
  "다음 코드를 리뷰해주세요. 코드 품질, 성능, 보안, 가독성, 유지보수성 관점에서 분석하고 개선점을 제안해주세요.\n\n" ++
  languageInfo ++ focusInfo ++ "=== 리뷰할 코드 ===\n\n" ++
  "\x60\x60\x60" ++ langOrEmpty language ++ "\n" ++ code ++ "\n\x60\x60\x60" ++
  codeReviewTail

/-- The code-review prompt handler (lines 579-593): one user message whose
text content is the rendered template.  The single-message envelope is
collapsed to its text content block; prompts declare no output schema, so
there is no structured payload. -/
def codeReviewHandler (a : CodeReviewArgs) : Except String HandlerResult :=
  .ok ⟨[.text (codeReviewTemplate a.code a.language a.focus)], none⟩

/-! ## Registry and dispatcher -/

/-- Modelled from the spec (section 3): one registered capability, packing
its validated argument type, the input-validation gate and the handler. -/
structure Capability where
  Args : Type
  validate : Json → ValidationResult Args
  handler : Args → Except String HandlerResult

/-- The greet capability (src/src/index.ts lines 12-58). -/
def greetCap : Capability :=
  ⟨GreetArgs, parseGreet, greetHandler⟩

/-- The calculator capability (src/src/index.ts lines 60-129). -/
def calculatorCap : Capability :=
  ⟨CalcArgs, parseCalculator, calcHandler⟩

/-- The time capability (src/src/index.ts lines 131-189). -/
def timeCap (env : Env) : Capability :=
  ⟨TimeArgs, parseTime, timeHandler env⟩

/-- The geocode capability (src/src/index.ts lines 191-269). -/
def geocodeCap (env : Env) : Capability :=
  ⟨GeoArgs, parseGeocode, geocodeHandler env⟩

/-- The get-weather capability (src/src/index.ts lines 271-408). -/
def weatherCap (env : Env) : Capability :=
  ⟨WeatherArgs, parseWeather, weatherHandler env⟩

/-- The generate-image capability (src/src/index.ts lines 410-458). -/
def imageCap (env : Env) : Capability :=
  ⟨ImageArgs, parseImage, imageHandler env⟩

/-- The code-review prompt capability (src/src/index.ts lines 562-594). -/
def codeReviewCap : Capability :=
  ⟨CodeReviewArgs, parseCodeReview, codeReviewHandler⟩

/-- The server-info resource capability (src/src/index.ts lines 597-632):
registered under its fixed URI; it takes no arguments, and its single
`contents` entry is collapsed to its text content. -/
def serverInfoCap (env : Env) : Capability :=
  ⟨Unit, fun _ => .valid (), fun _ => .ok ⟨[.text env.serverInfoJson], none⟩⟩

/-- Modelled from the spec (section 4.2): the registry lookup over the
capabilities src/src/index.ts registers at startup — six tools, one prompt
and one resource, each under its own kind. -/
def lookup (env : Env) : CapKind → String → Option Capability
  | .tool, "greet" => some greetCap
  | .tool, "calculator" => some calculatorCap
  | .tool, "time" => some (timeCap env)
  | .tool, "geocode" => some (geocodeCap env)
  | .tool, "get-weather" => some (weatherCap env)
  | .tool, "generate-image" => some (imageCap env)
  | .prompt, "code-review" => some codeReviewCap
  | .resource, "server://info" => some (serverInfoCap env)
  | _, _ => none

/-- Modelled from the spec (section 4.3): the dispatcher.  Lookup miss and
validation failure become `Failure`; a handler fault is caught at this
boundary and becomes `Failure` with the handler's message verbatim; a
handler success becomes `Success` with the content blocks in order and the
structured payload. -/
def invoke (env : Env) (kind : CapKind) (name : String) (rawArgs : Json) :
    InvocationOutcome :=
  match lookup env kind name with
  | none => .Failure ("unknown capability: " ++ kind.repr ++ "/" ++ name)
  | some cap =>
    match cap.validate rawArgs with
    | .invalid errs => .Failure (renderErrors errs)
    | .valid v =>
      match cap.handler v with
      | .error msg => .Failure msg
      | .ok r => .Success r.content r.structuredContent

/-- A concrete environment used to evaluate the dispatcher at concrete
inputs: every timezone is invalid, both fetches fail, no token is set. -/
def defaultEnv : Env where
  formatTime := fun _ => none
  formatDate := fun s => s
  geocodeFetch := fun _ => .empty
  weatherFetch := fun _ _ _ => .noCurrent
  hfToken := none
  textToImage := fun _ => .error ("no provider")
  serverInfoJson := "{}"

/-- Whether an outcome is a `Success` carrying exactly one text content
block with the given text. -/
def successTextIs (o : InvocationOutcome) (s : String) : Bool :=
  match o with
  | .Success c _ => c = [.text s]
  | .Failure _ => false

/-- `reqEnum` yields a coerced value only when it is a member of the
declared literal set. -/
theorem reqEnum_ok_mem (fields : List (String × Json)) (k : String)
    (allowed : List String) (s : String) :
    reqEnum fields k allowed = .ok s → s ∈ allowed := by
  unfold reqEnum
  split
  · intro h; cases h
  · split
    · intro h; cases h; assumption
    · intro h; cases h
  · intro h; cases h

/-- Claim C1: for every registered capability and every input that passed
validation, a handler fault (the calculator's division-by-zero throw, the
time tool's invalid-timezone throw, or any other) is caught at the
dispatcher's invocation boundary and becomes a `Failure` outcome whose
message is the handler's message verbatim.  `invoke` is a total function
into `InvocationOutcome` and the registry is immutable, so no handler fault
escapes as an unhandled fault and subsequent invocations are served
unchanged. -/
theorem handler_fault_caught (env : Env) (kind : CapKind) (name : String)
    (cap : Capability) (raw : Json) (v : cap.Args) (msg : String)
    (h1 : lookup env kind name = some cap)
    (h2 : cap.validate raw = .valid v)
    (h3 : cap.handler v = .error msg) :
    invoke env kind name raw = .Failure msg := by
  simp [invoke, h1, h2, h3]

/-- Witness for C1: the calculator at a validated division by zero throws,
and the dispatcher converts the throw into a `Failure` with the same
message. -/
theorem handler_fault_caught_witness :
    lookup defaultEnv .tool "calculator" = some calculatorCap ∧
    calculatorCap.validate
      (.obj [("number1", .num 10), ("number2", .num 0), ("operator", .str "/")]) =
      .valid ⟨10, 0, "/"⟩ ∧
    calculatorCap.handler ⟨10, 0, "/"⟩ = .error ("0으로 나눌 수 없습니다.") ∧
    invoke defaultEnv .tool "calculator"
      (.obj [("number1", .num 10), ("number2", .num 0), ("operator", .str "/")]) =
      .Failure ("0으로 나눌 수 없습니다.") :=
  ⟨rfl, rfl, rfl,
    handler_fault_caught defaultEnv .tool "calculator" calculatorCap
      (.obj [("number1", .num 10), ("number2", .num 0), ("operator", .str "/")])
      ⟨10, 0, "/"⟩ ("0으로 나눌 수 없습니다.") rfl rfl rfl⟩

/-- Claim C2 (as stated) is false at its own input: invoking the calculator
with number1 = 10, number2 = 5, operator `+` yields a `Success` whose single
text block is `10 + 5 = 15 (덧셈)` — the handler always appends the Korean
operation name in parentheses — so the outcome does not carry exactly one
text block equal to `10 + 5 = 15`. -/
theorem calc_plus_claimed_text_cex :
    successTextIs
      (invoke defaultEnv .tool "calculator"
        (.obj [("number1", .num 10), ("number2", .num 5), ("operator", .str "+")]))
      ("10 + 5 = 15") = false := by
  have h15 : (10 : Rat) + 5 = 15 := by norm_num
  simp [successTextIs, invoke, lookup, calculatorCap, parseCalculator, reqNum, reqEnum,
    getField, calcHandler, calcSwitch, jsNumRepr, h15]
  decide

/-- Claim C2 (amended): invoking the calculator with number1 = 10,
number2 = 5, operator `+` yields a `Success` containing exactly one text
block whose text is `10 + 5 = 15 (덧셈)`, duplicated into the structured
payload. -/
theorem calc_plus_result_text :
    invoke defaultEnv .tool "calculator"
      (.obj [("number1", .num 10), ("number2", .num 5), ("operator", .str "+")]) =
      .Success [.text ("10 + 5 = 15 (덧셈)")] (some [.text ("10 + 5 = 15 (덧셈)")]) := by
  have h15 : (10 : Rat) + 5 = 15 := by norm_num
  simp [invoke, lookup, calculatorCap, parseCalculator, reqNum, reqEnum,
    getField, calcHandler, calcSwitch, jsNumRepr, h15]
  decide

/-- Claim C3: dividing by zero fails.  For every first operand, the
calculator handler with a zero second operand and operator `/` throws the
division-by-zero message instead of producing a numeric result, and the
dispatched invocation at number1 = 10, number2 = 0 is the corresponding
`Failure`. -/
theorem calc_div_zero_failure :
    (∀ n1 : Rat, calcHandler ⟨n1, 0, "/"⟩ = .error ("0으로 나눌 수 없습니다.")) ∧
    invoke defaultEnv .tool "calculator"
      (.obj [("number1", .num 10), ("number2", .num 0), ("operator", .str "/")]) =
      .Failure ("0으로 나눌 수 없습니다.") :=
  ⟨fun _ => rfl, by decide⟩

/-- Claim C4: omitting the greet tool's optional `language` field validates
successfully with the coerced default `en`, and the whole invocation agrees
with one whose arguments carry `language = en` explicitly, for every name
and every environment. -/
theorem greet_language_default (env : Env) (nm : String) :
    parseGreet (.obj [("name", .str nm)]) = .valid ⟨nm, "en"⟩ ∧
    invoke env .tool "greet" (.obj [("name", .str nm)]) =
      invoke env .tool "greet" (.obj [("name", .str nm), ("language", .str "en")]) :=
  ⟨rfl, rfl⟩

/-- Claim C5: for every (kind, name) pair the registry does not hold,
`invoke` yields the unknown-capability `Failure` naming the kind and name,
for all raw arguments; being a total function, it never throws past the
dispatcher boundary. -/
theorem unknown_capability_failure (env : Env) (kind : CapKind) (name : String)
    (raw : Json) (h : lookup env kind name = none) :
    invoke env kind name raw =
      .Failure ("unknown capability: " ++ kind.repr ++ "/" ++ name) := by
  simp [invoke, h]

/-- Witness for C5: the tool name `nope` is unregistered and its invocation
fails with the unknown-capability message. -/
theorem unknown_capability_failure_witness :
    lookup defaultEnv .tool "nope" = none ∧
    invoke defaultEnv .tool "nope" (.obj []) =
      .Failure ("unknown capability: " ++ CapKind.repr .tool ++ "/" ++ "nope") :=
  ⟨rfl, unknown_capability_failure defaultEnv .tool "nope" (.obj []) rfl⟩

/-- Claim C6: the get-weather bounded numeric fields validate exactly at
their bounds (latitude ±90, longitude ±180, forecastDays 1 and 16) and fail
one unit outside each bound, holding the other fields valid; each
out-of-bounds invocation is a `Failure` naming the offending field. -/
theorem weather_bounds :
    parseWeather (.obj [("latitude", .num 90), ("longitude", .num 0)]) = .valid ⟨90, 0, 7⟩ ∧
    parseWeather (.obj [("latitude", .num (-90)), ("longitude", .num 0)]) = .valid ⟨-90, 0, 7⟩ ∧
    parseWeather (.obj [("latitude", .num 0), ("longitude", .num 180)]) = .valid ⟨0, 180, 7⟩ ∧
    parseWeather (.obj [("latitude", .num 0), ("longitude", .num (-180))]) = .valid ⟨0, -180, 7⟩ ∧
    parseWeather (.obj [("latitude", .num 0), ("longitude", .num 0), ("forecastDays", .num 1)]) =
      .valid ⟨0, 0, 1⟩ ∧
    parseWeather (.obj [("latitude", .num 0), ("longitude", .num 0), ("forecastDays", .num 16)]) =
      .valid ⟨0, 0, 16⟩ ∧
    parseWeather (.obj [("latitude", .num 91), ("longitude", .num 0)]) =
      .invalid [⟨"latitude", "Too big"⟩] ∧
    parseWeather (.obj [("latitude", .num (-91)), ("longitude", .num 0)]) =
      .invalid [⟨"latitude", "Too small"⟩] ∧
    parseWeather (.obj [("latitude", .num 0), ("longitude", .num 181)]) =
      .invalid [⟨"longitude", "Too big"⟩] ∧
    parseWeather (.obj [("latitude", .num 0), ("longitude", .num (-181))]) =
      .invalid [⟨"longitude", "Too small"⟩] ∧
    parseWeather (.obj [("latitude", .num 0), ("longitude", .num 0), ("forecastDays", .num 0)]) =
      .invalid [⟨"forecastDays", "Too small"⟩] ∧
    parseWeather (.obj [("latitude", .num 0), ("longitude", .num 0), ("forecastDays", .num 17)]) =
      .invalid [⟨"forecastDays", "Too big"⟩] ∧
    invoke defaultEnv .tool "get-weather" (.obj [("latitude", .num 91), ("longitude", .num 0)]) =
      .Failure ("latitude: Too big") ∧
    invoke defaultEnv .tool "get-weather" (.obj [("latitude", .num (-91)), ("longitude", .num 0)]) =
      .Failure ("latitude: Too small") ∧
    invoke defaultEnv .tool "get-weather" (.obj [("latitude", .num 0), ("longitude", .num 181)]) =
      .Failure ("longitude: Too big") ∧
    invoke defaultEnv .tool "get-weather" (.obj [("latitude", .num 0), ("longitude", .num (-181))]) =
      .Failure ("longitude: Too small") ∧
    invoke defaultEnv .tool "get-weather"
      (.obj [("latitude", .num 0), ("longitude", .num 0), ("forecastDays", .num 0)]) =
      .Failure ("forecastDays: Too small") ∧
    invoke defaultEnv .tool "get-weather"
      (.obj [("latitude", .num 0), ("longitude", .num 0), ("forecastDays", .num 17)]) =
      .Failure ("forecastDays: Too big") := by
  decide

/-- Claim C7: validation collects every field error instead of stopping at
the first.  For every environment, every second operand and every operator
outside the declared enum, invoking the calculator with number1 missing
and that operator yields both field errors — the missing number1 and the
invalid operator — and the dispatched `Failure` message enumerates both,
joined, not truncated to the first. -/
theorem validation_accumulates (env : Env) (n2 : Rat) (op : String)
    (hop : op ∉ (["+", "-", "*", "/"] : List String)) :
    parseCalculator (.obj [("number2", .num n2), ("operator", .str op)]) =
      .invalid [⟨"number1", "Required"⟩, ⟨"operator", "Invalid enum value"⟩] ∧
    renderErrors [⟨"number1", "Required"⟩, ⟨"operator", "Invalid enum value"⟩] =
      "number1: Required; operator: Invalid enum value" ∧
    invoke env .tool "calculator" (.obj [("number2", .num n2), ("operator", .str op)]) =
      .Failure ("number1: Required; operator: Invalid enum value") := by
  have hp : parseCalculator (.obj [("number2", .num n2), ("operator", .str op)]) =
      .invalid [⟨"number1", "Required"⟩, ⟨"operator", "Invalid enum value"⟩] := by
    simp [parseCalculator, reqNum, reqEnum, getField, hop, errsOf]
  have hr : renderErrors [⟨"number1", "Required"⟩, ⟨"operator", "Invalid enum value"⟩] =
      "number1: Required; operator: Invalid enum value" := by decide
  refine ⟨hp, hr, ?_⟩
  simp [invoke, lookup, calculatorCap, hp, hr]

/-- Witness for C7: the operator `%` is outside the enum, and with number1
also missing the two collected errors are both enumerated in the `Failure`
message. -/
theorem validation_accumulates_witness :
    (("%" : String) ∉ (["+", "-", "*", "/"] : List String)) ∧
    (parseCalculator (.obj [("number2", .num 5), ("operator", .str "%")]) =
      .invalid [⟨"number1", "Required"⟩, ⟨"operator", "Invalid enum value"⟩] ∧
    renderErrors [⟨"number1", "Required"⟩, ⟨"operator", "Invalid enum value"⟩] =
      "number1: Required; operator: Invalid enum value" ∧
    invoke defaultEnv .tool "calculator" (.obj [("number2", .num 5), ("operator", .str "%")]) =
      .Failure ("number1: Required; operator: Invalid enum value")) :=
  ⟨by decide, validation_accumulates defaultEnv 5 ("%") (by decide)⟩

/-- Claim C8: greet and calculator are deterministic — their outcome is a
function of the raw arguments alone, independent of the environment (the
external state), so invoking twice with identical arguments, in any order
and under any intervening external change, yields identical outcomes. -/
theorem deterministic_invocation (env env2 : Env) (raw : Json) :
    invoke env .tool "greet" raw = invoke env2 .tool "greet" raw ∧
    invoke env .tool "calculator" raw = invoke env2 .tool "calculator" raw :=
  ⟨rfl, rfl⟩

/-- Claim C9: under the precondition that the calculator's arguments passed
schema validation, the operator is one of the four declared literals, so
the switch takes one of the four declared cases and the default branch —
the unsupported-operator throw — is unreachable. -/
theorem calc_default_unreachable (raw : Json) (a : CalcArgs)
    (h : parseCalculator raw = .valid a) :
    (a.operator = "+" ∨ a.operator = "-" ∨ a.operator = "*" ∨ a.operator = "/") ∧
    calcSwitch a.number1 a.number2 a.operator ≠
      .error ("지원하지 않는 연산자입니다: " ++ a.operator) := by
  have hmem : a.operator = "+" ∨ a.operator = "-" ∨ a.operator = "*" ∨ a.operator = "/" := by
    cases raw <;> simp only [parseCalculator] at h <;> try simp at h
    next fields =>
      split at h
      · next h1 h2 h3 =>
          cases h
          have := reqEnum_ok_mem fields ("operator") (["+", "-", "*", "/"]) _ h3
          simpa using this
      · simp at h
  refine ⟨hmem, ?_⟩
  rcases hmem with h1 | h1 | h1 | h1 <;> rw [h1]
  · simp [calcSwitch]
  · simp [calcSwitch]
  · simp [calcSwitch]
  · intro hc
    simp only [calcSwitch] at hc
    rw [if_neg (by decide), if_neg (by decide), if_neg (by decide), if_true] at hc
    split at hc
    · rw [Except.error.injEq] at hc
      revert hc
      decide
    · exact Except.noConfusion hc

/-- Witness for C9: the validated input number1 = 10, number2 = 5,
operator `+` takes the `+` case and does not reach the default branch. -/
theorem calc_default_unreachable_witness :
    parseCalculator
      (.obj [("number1", .num 10), ("number2", .num 5), ("operator", .str "+")]) =
      .valid ⟨10, 5, "+"⟩ ∧
    ((("+" : String) = "+" ∨ ("+" : String) = "-" ∨ ("+" : String) = "*" ∨
        ("+" : String) = "/") ∧
      calcSwitch 10 5 "+" ≠ .error ("지원하지 않는 연산자입니다: " ++ "+")) :=
  ⟨rfl,
    calc_default_unreachable
      (.obj [("number1", .num 10), ("number2", .num 5), ("operator", .str "+")])
      ⟨10, 5, "+"⟩ rfl⟩

/-- Claim C10: every tool that declares an output schema (greet,
calculator, time, geocode, get-weather) returns, on every successful
invocation, a `structuredContent` payload whose content array is identical
to the rendered content-block sequence. -/
theorem structured_matches_content (env : Env)
    (ga : GreetArgs) (gr : HandlerResult)
    (ca : CalcArgs) (cr : HandlerResult)
    (ta : TimeArgs) (tr : HandlerResult)
    (gea : GeoArgs) (ger : HandlerResult)
    (wa : WeatherArgs) (wr : HandlerResult) :
    (greetHandler ga = .ok gr → gr.structuredContent = some gr.content) ∧
    (calcHandler ca = .ok cr → cr.structuredContent = some cr.content) ∧
    (timeHandler env ta = .ok tr → tr.structuredContent = some tr.content) ∧
    (geocodeHandler env gea = .ok ger → ger.structuredContent = some ger.content) ∧
    (weatherHandler env wa = .ok wr → wr.structuredContent = some wr.content) := by
  refine ⟨?_, ?_, ?_, ?_, ?_⟩
  · intro h; cases h; rfl
  · intro h; unfold calcHandler at h; split at h
    · simp at h
    · cases h; rfl
  · intro h; unfold timeHandler at h; split at h
    · cases h; rfl
    · simp at h
  · intro h; unfold geocodeHandler at h; split at h
    · simp at h
    · simp at h
    · cases h; rfl
  · intro h; unfold weatherHandler at h; split at h
    · simp at h
    · simp at h
    · cases h; rfl

/-- Witness for C10: the greet handler's concrete success carries a
structured payload equal to its content blocks. -/
theorem structured_matches_content_witness :
    greetHandler ⟨"Bob", "en"⟩ =
      .ok ⟨[.text ("Hey there, Bob! 👋 Nice to meet you!")],
        some [.text ("Hey there, Bob! 👋 Nice to meet you!")]⟩ ∧
    HandlerResult.structuredContent
        ⟨[.text ("Hey there, Bob! 👋 Nice to meet you!")],
          some [.text ("Hey there, Bob! 👋 Nice to meet you!")]⟩ =
      some (HandlerResult.content
        ⟨[.text ("Hey there, Bob! 👋 Nice to meet you!")],
          some [.text ("Hey there, Bob! 👋 Nice to meet you!")]⟩) :=
  ⟨rfl,
    (structured_matches_content defaultEnv ⟨"Bob", "en"⟩
        ⟨[.text ("Hey there, Bob! 👋 Nice to meet you!")],
          some [.text ("Hey there, Bob! 👋 Nice to meet you!")]⟩
        ⟨10, 0, "/"⟩ ⟨[], none⟩ ⟨""⟩ ⟨[], none⟩ ⟨""⟩ ⟨[], none⟩
        ⟨0, 0, 7⟩ ⟨[], none⟩).1 rfl⟩

end MCP
